import Mathlib

/-!
Verification development for the `export-mail` repository (Outlook → MBOX
exporter). The definitions below are a shallow embedding of the TypeScript
sources:

* `src/src/email/EmailDownloader.ts` (fetch engine, staging store, filenames),
* `src/src/auth/AuthManager.ts` (token-cache validity),
* `src/index.ts` (the `full` pipeline command),
* `src/src/types/index.ts` (the data model).

Network and filesystem effects are made explicit: the remote mailbox API is a
function parameter (`server`, `getAtt`, `lookupByName`), the staging directory
is an association list from filename to record, and `async` control flow with
`try`/`catch` becomes plain functions returning `Option`/`Except`.
-/

namespace ExportMail

/-! ## Data model (src/src/types/index.ts) -/

structure EmailAddress where
  name : String
  address : String
deriving DecidableEq

inductive BodyContentType where
  | text
  | html
deriving DecidableEq

structure EmailBody where
  contentType : BodyContentType
  content : String
deriving DecidableEq

structure EmailAttachment where
  id : String
  name : String
  contentType : String
  size : Nat
  isInline : Bool
  contentBytes : Option String
  contentId : Option String
deriving DecidableEq

inductive Importance where
  | low
  | normal
  | high
deriving DecidableEq

/-- Calendar timestamp. In the source, `receivedDateTime`/`sentDateTime` are
ISO-8601 strings that are parsed (`new Date(...)`) exactly once, when the
staging filename is generated; the embedding carries the parsed fields. -/
structure DateTime where
  year : Nat
  month : Nat
  day : Nat
  hour : Nat
  minute : Nat
  second : Nat
deriving DecidableEq

structure EmailMessage where
  id : String
  subject : String
  «from» : EmailAddress
  toRecipients : List EmailAddress
  ccRecipients : List EmailAddress
  bccRecipients : List EmailAddress
  replyTo : List EmailAddress
  receivedDateTime : DateTime
  sentDateTime : DateTime
  body : EmailBody
  attachments : Option (List EmailAttachment)
  internetMessageId : String
  conversationId : String
  importance : Importance
  isRead : Bool
  isDraft : Bool
  webLink : String
  inferenceClassification : String
  hasAttachments : Bool
  parentFolderId : String
  flag : String
  bodyPreview : String
deriving DecidableEq

structure MailFolder where
  id : String
  displayName : String
deriving DecidableEq

structure DownloadOptions where
  folder : String
  limit : Nat
  fromDate : Option DateTime
  toDate : Option DateTime
  outputPath : String
  includeAttachments : Option Bool
  batchSize : Option Nat
deriving DecidableEq

/-! ## Staging filenames (EmailDownloader.generateEmailFileName) -/

/-- Two-digit zero padding, as produced by date-fns `MM`, `dd`, `HH`, `mm`, `ss`. -/
def pad2 (n : Nat) : String :=
  if n < 10 then "0" ++ toString n else toString n

/-- Four-digit zero padding, as produced by date-fns `yyyy`. -/
def pad4 (n : Nat) : String :=
  if n < 10 then "000" ++ toString n
  else if n < 100 then "00" ++ toString n
  else if n < 1000 then "0" ++ toString n
  else toString n

/-- `format(new Date(email.receivedDateTime), "yyyy-MM-dd_HH-mm-ss")`. -/
def formatDateTime (d : DateTime) : String :=
  pad4 d.year ++ "-" ++ pad2 d.month ++ "-" ++ pad2 d.day ++ "_" ++
    pad2 d.hour ++ "-" ++ pad2 d.minute ++ "-" ++ pad2 d.second

/-- JS `\s` on the ASCII range (the regexes in the source are applied to mail
subjects; the embedding covers the ASCII whitespace class). -/
def isSpaceJS (c : Char) : Bool :=
  c == ' ' || c == '\t' || c == '\n' || c == '\r' || c == '\x0b' || c == '\x0c'

/-- Characters that survive sanitization: the safe set `[A-Za-z0-9_-]`. -/
def safeChar (c : Char) : Bool :=
  c.isAlphanum || c == '-' || c == '_'

/-- Characters kept by `subject.replace(/[^a-zA-Z0-9\-_\s]/g, "")`:
the safe set plus whitespace (which a later pass turns into underscores). -/
def keepChar (c : Char) : Bool :=
  safeChar c || isSpaceJS c

/-- One pass of `.replace(/\s+/g, "_")`: every maximal run of whitespace
becomes a single underscore. `prevWs` records whether the previous character
belonged to a whitespace run. -/
def collapseWsAux : Bool → List Char → List Char
  | _, [] => []
  | prevWs, a :: t =>
    if isSpaceJS a then
      if prevWs then collapseWsAux true t
      else '_' :: collapseWsAux true t
    else a :: collapseWsAux false t

def collapseWs (l : List Char) : List Char :=
  collapseWsAux false l

/-- `email.subject.replace(/[^a-zA-Z0-9\-_\s]/g, "").replace(/\s+/g, "_").substring(0, 50)`. -/
def sanitizeSubject (s : String) : String :=
  String.mk ((collapseWs (s.data.filter keepChar)).take 50)

/-- `EmailDownloader.generateEmailFileName`:
`${date}_${subject}_${email.id}.json`. -/
def generateEmailFileName (email : EmailMessage) : String :=
  formatDateTime email.receivedDateTime ++ "_" ++ sanitizeSubject email.subject
    ++ "_" ++ email.id ++ ".json"

/-! ## Staging store (EmailDownloader.saveEmailsBatch)

The output directory is an association list from filename to the staged
record; `Bun.write` on an existing path overwrites it in place. -/

abbrev Store := List (String × EmailMessage)

/-- Filesystem write: overwrite the unit at key `k` if present, else append. -/
def writeUnit (k : String) (v : EmailMessage) : Store → Store
  | [] => [(k, v)]
  | (k2, w) :: rest =>
    if k2 = k then (k, v) :: rest else (k2, w) :: writeUnit k v rest

/-- Read back the unit staged under key `k`. -/
def lookupUnit (k : String) : Store → Option EmailMessage
  | [] => none
  | (k2, w) :: rest => if k2 = k then some w else lookupUnit k rest

/-- A write attempt: `some` is a completed `Bun.write`, `none` is a thrown
write error (e.g. disk full). -/
abbrev WriteAttempt := String → EmailMessage → Store → Option Store

/-- The write that always succeeds. -/
def okWrite : WriteAttempt := fun k v fs => some (writeUnit k v fs)

/-- A write that throws exactly on the filenames selected by `bad`. -/
def condWrite (bad : String → Bool) : WriteAttempt := fun k v fs =>
  if bad k then none else some (writeUnit k v fs)

/-- `EmailDownloader.saveEmailsBatch`: write each record under its generated
filename; a per-record `try`/`catch` logs a failed write and continues with
the rest of the batch. -/
def saveEmailsBatch (write : WriteAttempt) (emails : List EmailMessage)
    (fs : Store) : Store :=
  match emails with
  | [] => fs
  | e :: rest =>
    match write (generateEmailFileName e) e fs with
    | some fs2 => saveEmailsBatch write rest fs2
    | none => saveEmailsBatch write rest fs

/-! ## Folder resolution (EmailDownloader.getFolderId) -/

/-- JS `String.prototype.toLowerCase()`: lower-case each character. -/
def toLowerCase (s : String) : String :=
  String.mk (s.data.map Char.toLower)

/-- The fixed mapping for well-known folders. -/
def specialFolders : List (String × String) :=
  [("inbox", "inbox"), ("sent", "sentitems"), ("drafts", "drafts"),
   ("deleted", "deleteditems"), ("junk", "junkemail")]

/-- `EmailDownloader.getFolderId`. `lookupByName` models the
`GET /me/mailFolders` display-name filter call, returning the list of
matching folders. The source takes `folders[0]` and only errors when the list
is empty. (The error message of the source quotes the folder name; the embedding
keeps the same words without the quote characters.) -/
def getFolderId (lookupByName : String → List MailFolder) (folderName : String) :
    Except String String :=
  let normalizedFolderName := toLowerCase folderName
  match specialFolders.lookup normalizedFolderName with
  | some fid => Except.ok fid
  | none =>
    match lookupByName folderName with
    | [] => Except.error ("Folder " ++ folderName ++ " not found")
    | f :: _ => Except.ok f.id

/-! ## Count query (EmailDownloader.getEmailCount) -/

/-- The JSON payload of the `/$count` endpoint: either a number or anything
else (`typeof response.data === "number" ? response.data : 0`). -/
inductive CountResponse where
  | num (n : Nat)
  | other
deriving DecidableEq

/-- `EmailDownloader.getEmailCount`: coerce a non-numeric payload to `0`,
then `Math.min(count, options.limit)`. -/
def getEmailCount (resp : CountResponse) (limit : Nat) : Nat :=
  let count := match resp with
    | CountResponse.num n => n
    | CountResponse.other => 0
  min count limit

/-! ## Attachment enrichment (EmailDownloader.fetchEmailAttachments) -/

/-- `EmailDownloader.fetchEmailAttachments`: `getAtt` models the per-record
attachments request; a thrown request (`Except.error`) is caught, logged at
debug level, and degraded to the empty list. -/
def fetchEmailAttachments (getAtt : String → Except String (List EmailAttachment))
    (emailId : String) : List EmailAttachment :=
  match getAtt emailId with
  | Except.ok atts => atts
  | Except.error _ => []

/-- The enrichment loop inside `EmailDownloader.fetchEmailBatch`: when
attachments were requested, every record flagged `hasAttachments` gets its
`attachments` field populated from its own secondary request. -/
def enrichWithAttachments (includeAttachments : Bool)
    (getAtt : String → Except String (List EmailAttachment))
    (emails : List EmailMessage) : List EmailMessage :=
  if includeAttachments then
    emails.map (fun e =>
      if e.hasAttachments then
        { e with attachments := some (fetchEmailAttachments getAtt e.id) }
      else e)
  else emails

/-! ## Paginated fetch loop (EmailDownloader.downloadEmailsBatch) -/

/-- The remote messages endpoint: given the optional `$skip` value and the
`$top` page size, return the page of records. -/
abbrev PageServer := Option Nat → Nat → List EmailMessage

/-- An honest offset-based provider over a fixed mailbox: `$skip` drops,
`$top` takes; a missing `$skip` starts from the beginning. -/
def offsetServer (allEmails : List EmailMessage) : PageServer := fun skipToken top =>
  (allEmails.drop (skipToken.getD 0)).take top

/-- `EmailDownloader.fetchEmailBatch`: one page request plus attachment
enrichment. -/
def fetchEmailBatch (server : PageServer) (includeAttachments : Bool)
    (getAtt : String → Except String (List EmailAttachment))
    (batchSize : Nat) (skipToken : Option Nat) : List EmailMessage :=
  enrichWithAttachments includeAttachments getAtt (server skipToken batchSize)

/-- `EmailDownloader.getNextPageToken`: the running record count, reused as
the next `$skip` value. -/
def getNextPageToken (currentCount : Nat) (batchSize : Nat) : Nat :=
  currentCount

/-- `options.batchSize || 50` (JS `||`: `0` also falls back to the default). -/
def batchSizeOf (o : DownloadOptions) : Nat :=
  match o.batchSize with
  | some b => if b = 0 then 50 else b
  | none => 50

/-- `options.includeAttachments` truthiness. -/
def includeAttachmentsOf (o : DownloadOptions) : Bool :=
  match o.includeAttachments with
  | some b => b
  | none => false

/-- The `while` loop of `EmailDownloader.downloadEmailsBatch`, with explicit
fuel (the source loop has no structural bound; every theorem below supplies
fuel that is not exhausted). Returns the staging store, the final
`downloadedCount`, and the number of page requests issued. -/
def downloadEmailsBatchLoop (server : PageServer)
    (getAtt : String → Except String (List EmailAttachment))
    (o : DownloadOptions) (totalEmails batchSize : Nat) :
    Nat → Nat → Option Nat → Store → Nat → Store × Nat × Nat
  | 0, downloadedCount, _, fs, requests => (fs, downloadedCount, requests)
  | fuel + 1, downloadedCount, skipToken, fs, requests =>
    if downloadedCount < totalEmails ∧ downloadedCount < o.limit then
      let remainingEmails :=
        min batchSize (min (o.limit - downloadedCount) (totalEmails - downloadedCount))
      let emails :=
        fetchEmailBatch server (includeAttachmentsOf o) getAtt remainingEmails skipToken
      if emails.length = 0 then
        (fs, downloadedCount, requests + 1)
      else
        let fs2 := saveEmailsBatch okWrite emails fs
        let downloadedCount2 := downloadedCount + emails.length
        let skipToken2 :=
          if emails.length = remainingEmails then
            some (getNextPageToken downloadedCount2 batchSize)
          else none
        downloadEmailsBatchLoop server getAtt o totalEmails batchSize
          fuel downloadedCount2 skipToken2 fs2 (requests + 1)
    else
      (fs, downloadedCount, requests)

/-- `EmailDownloader.downloadEmailsBatch`: run the loop from an empty cursor. -/
def downloadEmailsBatch (server : PageServer)
    (getAtt : String → Except String (List EmailAttachment))
    (o : DownloadOptions) (totalEmails fuel : Nat) : Store × Nat × Nat :=
  downloadEmailsBatchLoop server getAtt o totalEmails (batchSizeOf o) fuel 0 none [] 0

/-- `EmailDownloader.downloadEmails` (count query and batch loop; spinner,
auth, and output-directory creation are effect-free here): when the clamped
count is `0` the run returns successfully without issuing any page request. -/
def downloadEmails (server : PageServer)
    (getAtt : String → Except String (List EmailAttachment))
    (countResp : CountResponse) (o : DownloadOptions) (fuel : Nat) :
    Store × Nat × Nat :=
  let totalEmails := getEmailCount countResp o.limit
  if totalEmails = 0 then ([], 0, 0)
  else downloadEmailsBatch server getAtt o totalEmails fuel

/-! ## Token cache (src/src/auth/AuthManager.ts) -/

/-- `AuthToken` from the types module; `expiresOn` is in epoch milliseconds
(absent when the cache file lacks the field), `account` is opaque. -/
structure AuthToken where
  accessToken : String
  refreshToken : Option String
  expiresOn : Option Int
  account : String
deriving DecidableEq

/-- Result of a successful `acquireTokenSilent` call. -/
structure RefreshResult where
  accessToken : String
  expiresOn : Int
  account : String
deriving DecidableEq

def fiveMinutesMs : Int := 5 * 60 * 1000

/-- `AuthManager.isTokenValid`: a falsy access token or missing expiry is
invalid; otherwise the expiry must lie strictly after `now` plus five
minutes. -/
def isTokenValid (now : Int) (token : AuthToken) : Bool :=
  if token.accessToken = "" ∨ token.expiresOn = none then false
  else
    match token.expiresOn with
    | some e => decide (now + fiveMinutesMs < e)
    | none => false

/-- `AuthManager.isAuthenticated`: a cached token exists and is valid. -/
def isAuthenticated (now : Int) (cachedToken : Option AuthToken) : Bool :=
  match cachedToken with
  | some t => isTokenValid now t
  | none => false

/-- `AuthManager.getAccessToken`: serve a valid cached token; otherwise, when
a truthy (nonempty) refresh token is cached, fall back to the silent-refresh
call (`refreshResult`, `none` when it throws or yields nothing) and return its
access token; otherwise return `null`. -/
def getAccessToken (now : Int) (cachedToken : Option AuthToken)
    (refreshResult : Option RefreshResult) : Option String :=
  match cachedToken with
  | none => none
  | some t =>
    if isTokenValid now t then some t.accessToken
    else
      match t.refreshToken with
      | none => none
      | some rt =>
        if rt = "" then none
        else
          match refreshResult with
          | some r => some r.accessToken
          | none => none

/-! ## The `full` pipeline command (src/index.ts) -/

/-- Outcome of the download phase: the staging store written so far under
`./temp-emails`, and the error if the phase threw mid-way. -/
abbrev DownloadOutcome := Store × Option String

/-- Outcome of the export phase, reading the staging store: `some err` means
the phase threw. -/
abbrev ExportRun := Store → Option String

/-- The `try`/`catch` body of the `full` command action: download, then
export, then `rm -rf ./temp-emails`; any thrown error jumps to the `catch`
(log + `process.exit(1)`), skipping the cleanup. Returns the final state of
the staging directory (`some st` = still on disk with contents `st`, `none` =
deleted) and the process exit code. -/
def fullCommandAction (download : DownloadOutcome) (runExport : ExportRun) :
    Option Store × Nat :=
  match download with
  | (staged, some _) => (some staged, 1)
  | (staged, none) =>
    match runExport staged with
    | some _ => (some staged, 1)
    | none => (none, 0)

/-! ## MBOX "From "-quoting

Modelled from the spec: the MBOX encoder (`src/export/MboxExporter.ts`,
`MboxExporter.exportToMbox`) is not included under `src/`; its quoting rule is
taken from spec §4.3: any line beginning with the literal sequence `From ` is
escaped by prefixing `>`, applied recursively to lines already beginning with
one or more `>From `. -/

/-- The five characters of the MBOX separator prefix. -/
def fromSep : List Char := ['F', 'r', 'o', 'm', ' ']

/-- Does the line begin with the literal bytes `From `? -/
def startsWithFrom (l : List Char) : Bool :=
  l.take 5 == fromSep

/-- Modelled from the spec: quote one line of body or header content — if the
line, after any run of leading `>` characters, begins with `From `, prefix one
further `>`. -/
def quoteLine (s : String) : String :=
  if startsWithFrom (s.data.dropWhile (fun c => c == '>')) then ">" ++ s else s

/-- Modelled from the spec: quote every line of the content of one entry. -/
def quoteBodyLines (lines : List String) : List String :=
  lines.map quoteLine

/-! ## Concrete fixtures used by counterexamples and witnesses -/

/-- A minimal record; fixtures below override individual fields. -/
def baseEmail : EmailMessage :=
  { id := "id0"
    subject := ""
    «from» := { name := "", address := "" }
    toRecipients := []
    ccRecipients := []
    bccRecipients := []
    replyTo := []
    receivedDateTime := ⟨2024, 1, 1, 0, 0, 0⟩
    sentDateTime := ⟨2024, 1, 1, 0, 0, 0⟩
    body := { contentType := BodyContentType.text, content := "" }
    attachments := none
    internetMessageId := ""
    conversationId := ""
    importance := Importance.normal
    isRead := false
    isDraft := false
    webLink := ""
    inferenceClassification := ""
    hasAttachments := false
    parentFolderId := ""
    flag := ""
    bodyPreview := "" }

/-- A mailbox of 123 distinct records (the C1 scenario). -/
def c1Mailbox : List EmailMessage :=
  (List.range 123).map (fun i => { baseEmail with id := toString i })

/-- The attachments endpoint for runs that never request attachments. -/
def noAtt : String → Except String (List EmailAttachment) :=
  fun _ => Except.ok []

/-- The CLI defaults of the `download` command: folder `inbox`, limit `1000`,
no date filter, default batch size. -/
def c1Options : DownloadOptions :=
  { folder := "inbox", limit := 1000, fromDate := none, toDate := none,
    outputPath := "./emails", includeAttachments := none, batchSize := none }

/-- Two folders sharing the display name `Archive`. -/
def c3LookupTwo (name : String) : List MailFolder :=
  if name = "Archive" then [⟨"id-A", "Archive"⟩, ⟨"id-B", "Archive"⟩] else []

/-- A lookup with no matches at all. -/
def c3LookupNone (name : String) : List MailFolder := []

/-- Same `id`, different subjects: the C4 counterexample pair. -/
def c4DupIdFirst : EmailMessage := { baseEmail with id := "A", subject := "x" }

def c4DupIdSecond : EmailMessage := { baseEmail with id := "A", subject := "y" }

/-- Same filename, different contents: the C4 witness pair. -/
def c4SameNameFirst : EmailMessage := baseEmail

def c4SameNameSecond : EmailMessage := { baseEmail with isRead := true }

/-- A sample attachment. -/
def c5Att : EmailAttachment :=
  { id := "att1", name := "a.txt", contentType := "text/plain", size := 3,
    isInline := false, contentBytes := some "QUJD", contentId := none }

/-- A record flagged `hasAttachments`. -/
def c5Email (i : String) : EmailMessage :=
  { baseEmail with id := i, hasAttachments := true }

/-- Five flagged records. -/
def c5Emails : List EmailMessage :=
  [c5Email "1", c5Email "2", c5Email "3", c5Email "4", c5Email "5"]

/-- The attachments endpoint that fails for record `3` only. -/
def c5GetAtt (i : String) : Except String (List EmailAttachment) :=
  if i = "3" then Except.error "HTTP 500" else Except.ok [c5Att]

/-- A download phase that staged one unit and then threw. -/
def c6DownloadFailed : DownloadOutcome :=
  ([(generateEmailFileName baseEmail, baseEmail)], some "fetch failed")

/-- A download phase that completed. -/
def c6DownloadOk : DownloadOutcome :=
  ([(generateEmailFileName baseEmail, baseEmail)], none)

/-- An export phase that succeeds. -/
def c6ExportOk : ExportRun := fun _ => none

/-- An export phase that throws. -/
def c6ExportFailed : ExportRun := fun _ => some "write failed"

/-- Subject `x y`, id `z`: slug `x_y`. -/
def c9First : EmailMessage := { baseEmail with subject := "x y", id := "z" }

/-- Subject `x`, id `y_z`. -/
def c9Second : EmailMessage := { baseEmail with subject := "x", id := "y_z" }

/-- Not yet expired, but within the five-minute window; a nonempty refresh
token is cached. -/
def c10Near : AuthToken :=
  { accessToken := "old-token", refreshToken := some "refresh-token",
    expiresOn := some 200000, account := "acct" }

/-- A near-expiry token whose cached refresh token is the empty string — the
only refresh-token value the device-code flow of this app ever caches. -/
def c10NearNoRefresh : AuthToken :=
  { accessToken := "old-token", refreshToken := some "",
    expiresOn := some 200000, account := "acct" }

/-- A successful silent-refresh result. -/
def c10Refresh : RefreshResult :=
  { accessToken := "new-token", expiresOn := 99999999, account := "acct" }

/-! ## Theorems -/

set_option maxRecDepth 8192

theorem lookupUnit_writeUnit_self (k : String) (v : EmailMessage) (fs : Store) :
    lookupUnit k (writeUnit k v fs) = some v := by
  induction fs with
  | nil => simp [writeUnit, lookupUnit]
  | cons p rest ih =>
    obtain ⟨k2, w⟩ := p
    by_cases h : k2 = k
    · simp [writeUnit, lookupUnit, h]
    · simp [writeUnit, lookupUnit, h, ih]

theorem lookupUnit_writeUnit_isSome (k k2 : String) (v : EmailMessage) (fs : Store)
    (h : (lookupUnit k fs).isSome = true) :
    (lookupUnit k (writeUnit k2 v fs)).isSome = true := by
  induction fs with
  | nil => simp [lookupUnit] at h
  | cons p rest ih =>
    obtain ⟨k3, w⟩ := p
    by_cases h32 : k3 = k2
    · subst h32
      by_cases h3k : k3 = k
      · subst h3k
        simp [writeUnit, lookupUnit]
      · simp [lookupUnit, h3k] at h
        simp [writeUnit, lookupUnit, h3k, h]
    · by_cases h3k : k3 = k
      · subst h3k
        simp [writeUnit, lookupUnit, h32]
      · simp [lookupUnit, h3k] at h
        simp [writeUnit, lookupUnit, h32, h3k]
        exact ih h

theorem lookupUnit_saveEmailsBatch_isSome (emails : List EmailMessage) (fs : Store)
    (k : String) (h : (lookupUnit k fs).isSome = true) :
    (lookupUnit k (saveEmailsBatch okWrite emails fs)).isSome = true := by
  induction emails generalizing fs with
  | nil => simpa [saveEmailsBatch] using h
  | cons e rest ih =>
    simp only [saveEmailsBatch, okWrite]
    exact ih _ (lookupUnit_writeUnit_isSome _ _ _ _ h)

theorem mem_saveEmailsBatch_isSome (emails : List EmailMessage) (fs : Store)
    (e : EmailMessage) (he : e ∈ emails) :
    (lookupUnit (generateEmailFileName e)
      (saveEmailsBatch okWrite emails fs)).isSome = true := by
  induction emails generalizing fs with
  | nil => cases he
  | cons a rest ih =>
    simp only [saveEmailsBatch, okWrite]
    rcases List.mem_cons.mp he with h | h
    · subst h
      exact lookupUnit_saveEmailsBatch_isSome rest _ _
        (by simp [lookupUnit_writeUnit_self])
    · exact ih _ h

theorem writeUnit_writeUnit_same (k : String) (v1 v2 : EmailMessage) (fs : Store) :
    writeUnit k v2 (writeUnit k v1 fs) = writeUnit k v2 fs := by
  induction fs with
  | nil => simp [writeUnit]
  | cons p rest ih =>
    obtain ⟨k2, w⟩ := p
    by_cases h : k2 = k
    · simp [writeUnit, h]
    · simp [writeUnit, h, ih]

/-- C4, counterexample: two records that share an `id` but differ in subject
are staged under two different filenames, so staging keyed on `id` alone is
not idempotent and `id`-duplicates are not deduplicated. -/
theorem c4_staging_same_id_counterexample :
    c4DupIdFirst.id = c4DupIdSecond.id
    ∧ generateEmailFileName c4DupIdFirst ≠ generateEmailFileName c4DupIdSecond
    ∧ (saveEmailsBatch okWrite [c4DupIdFirst, c4DupIdSecond] []).length = 2 :=
  ⟨rfl, by decide, rfl⟩

/-- C4, amended: staging is idempotent per generated filename, i.e. per
`(receivedAt, subject, id)` triple. Staging the same record twice overwrites
the same filename and never duplicates a staged unit, and among records with
the same generated filename the last-seen record wins. -/
theorem c4_staging_idempotent_per_filename :
    (∀ e1 e2 : EmailMessage,
        e1.receivedDateTime = e2.receivedDateTime → e1.subject = e2.subject →
        e1.id = e2.id → generateEmailFileName e1 = generateEmailFileName e2)
    ∧ (∀ (e : EmailMessage) (fs : Store),
        saveEmailsBatch okWrite [e, e] fs = saveEmailsBatch okWrite [e] fs)
    ∧ (∀ (e1 e2 : EmailMessage) (fs : Store),
        generateEmailFileName e1 = generateEmailFileName e2 →
        saveEmailsBatch okWrite [e1, e2] fs = saveEmailsBatch okWrite [e2] fs) := by
  refine ⟨?_, ?_, ?_⟩
  · intro e1 e2 h1 h2 h3
    simp [generateEmailFileName, h1, h2, h3]
  · intro e fs
    simp [saveEmailsBatch, okWrite, writeUnit_writeUnit_same]
  · intro e1 e2 fs h
    simp [saveEmailsBatch, okWrite, h, writeUnit_writeUnit_same]

/-- C4, witness: the amended idempotence at concrete records. -/
theorem c4_staging_idempotent_witness :
    generateEmailFileName c4SameNameFirst = generateEmailFileName c4SameNameSecond
    ∧ saveEmailsBatch okWrite [baseEmail, baseEmail] [] = saveEmailsBatch okWrite [baseEmail] []
    ∧ saveEmailsBatch okWrite [c4SameNameFirst, c4SameNameSecond] []
        = saveEmailsBatch okWrite [c4SameNameSecond] [] :=
  ⟨c4_staging_idempotent_per_filename.1 c4SameNameFirst c4SameNameSecond rfl rfl rfl,
   c4_staging_idempotent_per_filename.2.1 baseEmail [],
   c4_staging_idempotent_per_filename.2.2 c4SameNameFirst c4SameNameSecond [] rfl⟩

/-- C7: a write failure for one record never aborts the batch — the save is a
total function whose result is exactly the honest save of the records whose
writes succeed, so every remaining record is still written and the failed
records are simply absent. -/
theorem c7_stage_write_failure_isolated :
    ∀ (bad : String → Bool) (emails : List EmailMessage) (fs : Store),
      saveEmailsBatch (condWrite bad) emails fs
        = saveEmailsBatch okWrite
            (emails.filter (fun e => !bad (generateEmailFileName e))) fs := by
  intro bad emails
  induction emails with
  | nil => intro fs; rfl
  | cons e rest ih =>
    intro fs
    by_cases h : bad (generateEmailFileName e) = true
    · simp [saveEmailsBatch, condWrite, h, List.filter_cons, ih]
    · simp only [Bool.not_eq_true] at h
      simp [saveEmailsBatch, condWrite, okWrite, h, List.filter_cons, ih]

/-- C6: the `full` command deletes the temporary staging directory only after
both the download and the export phases completed; on any fatal error the
staging directory and its already-written units are returned intact. -/
theorem c6_staging_preserved_on_failure :
    ∀ (download : DownloadOutcome) (runExport : ExportRun),
      ((fullCommandAction download runExport).2 = 1 →
        (fullCommandAction download runExport).1 = some download.1)
      ∧ ((fullCommandAction download runExport).1 = none →
        download.2 = none ∧ runExport download.1 = none
          ∧ (fullCommandAction download runExport).2 = 0) := by
  intro download runExport
  obtain ⟨staged, derr⟩ := download
  cases derr with
  | some err => simp [fullCommandAction]
  | none =>
    cases hex : runExport staged with
    | some err => simp [fullCommandAction, hex]
    | none => simp [fullCommandAction, hex]

/-- C6, witness: a failing download phase and a failing export phase both
leave the staged units on disk. -/
theorem c6_staging_preserved_witness :
    (fullCommandAction c6DownloadFailed c6ExportOk).1 = some c6DownloadFailed.1
    ∧ (fullCommandAction c6DownloadOk c6ExportFailed).1 = some c6DownloadOk.1 :=
  ⟨(c6_staging_preserved_on_failure c6DownloadFailed c6ExportOk).1 rfl,
   (c6_staging_preserved_on_failure c6DownloadOk c6ExportFailed).1 rfl⟩

/-- C5: attachment failures are isolated per record. Enrichment preserves the
batch (same length), a record whose attachments request fails gets exactly the
empty attachment list, every other flagged record keeps its fetched
attachments, unflagged records pass through unchanged, and every enriched
record of the batch is still staged; no error escapes. -/
theorem c5_attachment_isolation :
    ∀ (getAtt : String → Except String (List EmailAttachment))
      (emails : List EmailMessage) (fs : Store),
      (enrichWithAttachments true getAtt emails).length = emails.length
      ∧ (∀ e err, e ∈ emails → e.hasAttachments = true →
          getAtt e.id = Except.error err →
          { e with attachments := some [] } ∈ enrichWithAttachments true getAtt emails)
      ∧ (∀ e atts, e ∈ emails → e.hasAttachments = true →
          getAtt e.id = Except.ok atts →
          { e with attachments := some atts } ∈ enrichWithAttachments true getAtt emails)
      ∧ (∀ e, e ∈ emails → e.hasAttachments = false →
          e ∈ enrichWithAttachments true getAtt emails)
      ∧ (∀ e, e ∈ enrichWithAttachments true getAtt emails →
          (lookupUnit (generateEmailFileName e)
            (saveEmailsBatch okWrite (enrichWithAttachments true getAtt emails) fs)).isSome
              = true) := by
  intro getAtt emails fs
  refine ⟨?_, ?_, ?_, ?_, ?_⟩
  · simp [enrichWithAttachments]
  · intro e err he ha hg
    simp only [enrichWithAttachments, if_true]
    exact List.mem_map.mpr ⟨e, he, by simp [ha, fetchEmailAttachments, hg]⟩
  · intro e atts he ha hg
    simp only [enrichWithAttachments, if_true]
    exact List.mem_map.mpr ⟨e, he, by simp [ha, fetchEmailAttachments, hg]⟩
  · intro e he ha
    simp only [enrichWithAttachments, if_true]
    exact List.mem_map.mpr ⟨e, he, by simp [ha]⟩
  · intro e he
    exact mem_saveEmailsBatch_isSome _ fs e he

/-- C5, witness: five flagged records where the attachments request fails for
record `3` only — the failed record is enriched with the empty list, record
`1` keeps its fetched attachment, and all five records survive. -/
theorem c5_attachment_isolation_witness :
    ({ c5Email "3" with attachments := some [] }
        ∈ enrichWithAttachments true c5GetAtt c5Emails)
    ∧ ({ c5Email "1" with attachments := some [c5Att] }
        ∈ enrichWithAttachments true c5GetAtt c5Emails)
    ∧ (enrichWithAttachments true c5GetAtt c5Emails).length = 5 :=
  ⟨(c5_attachment_isolation c5GetAtt c5Emails []).2.1 (c5Email "3") "HTTP 500"
      (by decide) rfl rfl,
   (c5_attachment_isolation c5GetAtt c5Emails []).2.2.1 (c5Email "1") [c5Att]
      (by decide) rfl rfl,
   (c5_attachment_isolation c5GetAtt c5Emails []).1⟩

/-- C8: the download target is the clamp `min(count, limit)` of the count
query against the caller limit; a non-numeric count payload is treated as `0`
and the run then completes successfully without issuing any page request. -/
theorem c8_total_min_count_limit :
    (∀ n limit : Nat, getEmailCount (CountResponse.num n) limit = min n limit)
    ∧ (∀ limit : Nat, getEmailCount CountResponse.other limit = 0)
    ∧ (∀ (server : PageServer) (getAtt : String → Except String (List EmailAttachment))
        (o : DownloadOptions) (fuel : Nat),
        downloadEmails server getAtt CountResponse.other o fuel = ([], 0, 0)) := by
  refine ⟨fun n limit => rfl, fun limit => ?_, fun server getAtt o fuel => ?_⟩
  · simp [getEmailCount]
  · simp [downloadEmails, getEmailCount]

set_option maxHeartbeats 2000000 in
/-- C1, failing-input evaluation: an honest provider holding 123 records
(pages of sizes 50, 50, 23 under the default batch size 50), a stale declared
total of 200, and the CLI default limit 1000. The claim says the loop yields
exactly 123 records and stops issuing page requests after the short page
(3 requests). The code instead continues — the short page only clears the
skip token, so the 4th request re-fetches the first page from the start
(re-downloading 50 duplicate records) and a 5th request (an empty page) ends
the loop: 5 page requests and a downloaded count of 173, not 123. -/
theorem c1_pagination_stale_total_overrun :
    (downloadEmails (offsetServer c1Mailbox) noAtt (CountResponse.num 200) c1Options 10).2
        = (173, 5)
    ∧ c1Mailbox.length = 123 :=
  ⟨by decide, by decide⟩

theorem dropWhileGtOfFrom (l : List Char) (h : startsWithFrom l = true) :
    l.dropWhile (fun c => c == '>') = l := by
  cases l with
  | nil => simp [startsWithFrom, fromSep] at h
  | cons c t =>
    have hc : c = 'F' := by
      simp [startsWithFrom, fromSep] at h
      exact h.1
    subst hc
    simp [List.dropWhile]

theorem quoteLine_of_startsWithFrom (s : String) (h : startsWithFrom s.data = true) :
    quoteLine s = ">" ++ s := by
  simp [quoteLine, dropWhileGtOfFrom s.data h, h]

theorem startsWithFrom_quoteLine (s : String) :
    startsWithFrom (quoteLine s).data = false := by
  obtain ⟨l⟩ := s
  by_cases h : startsWithFrom ((String.mk l).data.dropWhile (fun c => c == '>')) = true
  · simp only [quoteLine, h, if_true]
    show startsWithFrom ((">" ++ String.mk l).data) = false
    have hd : (">" ++ String.mk l).data = '>' :: l := rfl
    rw [hd]
    simp [startsWithFrom, fromSep]
  · simp only [quoteLine]
    rw [if_neg h]
    cases hl : startsWithFrom (String.mk l).data with
    | false => rfl
    | true =>
      exfalso
      apply h
      show startsWithFrom (l.dropWhile (fun c => c == '>')) = true
      rw [dropWhileGtOfFrom l hl]
      exact hl

/-- C2: MBOX From-quoting (modelled from spec §4.3, since the encoder source
is not included). A body line `From hacker@evil.com now` is emitted as
`>From hacker@evil.com now`, a line `>From already` becomes `>>From already`,
every line beginning with the literal bytes `From ` is emitted with a `>`
prefix, and no line of a quoted entry content begins with `From `. -/
theorem c2_mbox_from_quoting :
    quoteLine "From hacker@evil.com now" = ">From hacker@evil.com now"
    ∧ quoteLine ">From already" = ">>From already"
    ∧ (∀ s : String, startsWithFrom s.data = true → quoteLine s = ">" ++ s)
    ∧ (∀ (lines : List String) (out : String),
        out ∈ quoteBodyLines lines → startsWithFrom out.data = false) := by
  refine ⟨rfl, rfl, quoteLine_of_startsWithFrom, ?_⟩
  intro lines out hout
  obtain ⟨s, _, rfl⟩ := List.mem_map.mp hout
  exact startsWithFrom_quoteLine s

/-- C2, witness: the quoting theorem applied at concrete lines. -/
theorem c2_mbox_from_quoting_witness :
    quoteLine "From a b" = ">" ++ "From a b"
    ∧ startsWithFrom (quoteLine ">>From x").data = false :=
  ⟨c2_mbox_from_quoting.2.2.1 "From a b" (by decide),
   c2_mbox_from_quoting.2.2.2 [">>From x"] (quoteLine ">>From x")
     (by simp [quoteBodyLines])⟩

/-- C3, counterexample: a display-name lookup returning two matches does not
fail with a folder-not-found error — the code returns the identifier of the
first match. -/
theorem c3_folder_multi_match_counterexample :
    (c3LookupTwo "Archive").length = 2
    ∧ getFolderId c3LookupTwo "Archive" = Except.ok "id-A" :=
  ⟨rfl, rfl⟩

/-- C3, amended: a well-known folder name (lowercased) resolves through the
fixed mapping without consulting the lookup; otherwise a lookup by display
name is issued and resolution fails with a folder-not-found error exactly
when the lookup returns no match, the identifier of the first match being
returned otherwise. -/
theorem c3_folder_resolution_amended :
    (∀ (lk lk2 : String → List MailFolder) (name fid : String),
        specialFolders.lookup (toLowerCase name) = some fid →
        getFolderId lk name = Except.ok fid
          ∧ getFolderId lk name = getFolderId lk2 name)
    ∧ (∀ (lk : String → List MailFolder) (name : String),
        specialFolders.lookup (toLowerCase name) = none → lk name = [] →
        getFolderId lk name = Except.error ("Folder " ++ name ++ " not found"))
    ∧ (∀ (lk : String → List MailFolder) (name : String) (f : MailFolder)
          (rest : List MailFolder),
        specialFolders.lookup (toLowerCase name) = none → lk name = f :: rest →
        getFolderId lk name = Except.ok f.id) := by
  refine ⟨?_, ?_, ?_⟩
  · intro lk lk2 name fid h
    constructor <;> simp [getFolderId, h]
  · intro lk name h hl
    simp [getFolderId, h, hl]
  · intro lk name f rest h hl
    simp [getFolderId, h, hl]

/-- C3, witness: the amended resolution at the folder names `Sent` (special)
and `Custom` (no match). -/
theorem c3_folder_resolution_witness :
    getFolderId c3LookupNone "Sent" = Except.ok "sentitems"
    ∧ getFolderId c3LookupNone "Custom"
        = Except.error ("Folder " ++ "Custom" ++ " not found") :=
  ⟨(c3_folder_resolution_amended.1 c3LookupNone c3LookupNone "Sent" "sentitems"
      (by decide)).1,
   c3_folder_resolution_amended.2.1 c3LookupNone "Custom" (by decide) rfl⟩

theorem appendLeftCancelStr (a b c : String) (h : a ++ b = a ++ c) : b = c := by
  obtain ⟨da⟩ := a
  obtain ⟨db⟩ := b
  obtain ⟨dc⟩ := c
  have h2 : da ++ db = da ++ dc := congrArg String.data h
  exact congrArg String.mk (List.append_cancel_left h2)

theorem appendRightCancelStr (a b t : String) (h : a ++ t = b ++ t) : a = b := by
  obtain ⟨da⟩ := a
  obtain ⟨db⟩ := b
  obtain ⟨dt⟩ := t
  have h2 : da ++ dt = db ++ dt := congrArg String.data h
  exact congrArg String.mk (List.append_cancel_right h2)

theorem collapseWsAux_safe :
    ∀ (l : List Char) (b : Bool), (∀ c, c ∈ l → keepChar c = true) →
      ∀ c, c ∈ collapseWsAux b l → safeChar c = true := by
  intro l
  induction l with
  | nil => intro b _ c hc; simp [collapseWsAux] at hc
  | cons a t ih =>
    intro b hl c hc
    have ha : keepChar a = true := hl a (List.mem_cons_self a t)
    have ht : ∀ c2, c2 ∈ t → keepChar c2 = true :=
      fun c2 hc2 => hl c2 (List.mem_cons_of_mem a hc2)
    by_cases hsp : isSpaceJS a = true
    · cases b with
      | true =>
        simp only [collapseWsAux, hsp, if_true] at hc
        exact ih true ht c hc
      | false =>
        simp only [collapseWsAux, hsp, if_true] at hc
        rcases List.mem_cons.mp hc with h | h
        · subst h; decide
        · exact ih true ht c h
    · simp only [Bool.not_eq_true] at hsp
      simp only [collapseWsAux, hsp] at hc
      rcases List.mem_cons.mp hc with h | h
      · subst h
        simp [keepChar, hsp] at ha
        exact ha
      · exact ih false ht c h

/-- C9, counterexample: two records with distinct ids (and even the same
receipt time) whose staged filenames coincide — subject `x y` with id `z` and
subject `x` with id `y_z` both yield `2024-01-01_00-00-00_x_y_z.json` — so
the id suffix does not make names collision-free. -/
theorem c9_filename_collision_counterexample :
    c9First.id ≠ c9Second.id
    ∧ c9First.receivedDateTime = c9Second.receivedDateTime
    ∧ generateEmailFileName c9First = generateEmailFileName c9Second :=
  ⟨by decide, rfl, rfl⟩

/-- C9, amended: the staged filename is the sortable receivedAt timestamp,
then a subject slug of at most 50 characters drawn from `[A-Za-z0-9_-]`
(characters outside the safe set stripped, whitespace runs collapsed to
underscores), then the record id and the `.json` extension; names are
collision-free among records sharing the same timestamp and subject (the id
suffix then distinguishes them), but not in general (see the
counterexample). -/
theorem c9_filename_structure_amended :
    (∀ e : EmailMessage,
        generateEmailFileName e
          = formatDateTime e.receivedDateTime ++ "_" ++ sanitizeSubject e.subject
              ++ "_" ++ e.id ++ ".json")
    ∧ (∀ e : EmailMessage, (sanitizeSubject e.subject).data.length ≤ 50)
    ∧ (∀ (e : EmailMessage) (c : Char),
        c ∈ (sanitizeSubject e.subject).data → safeChar c = true)
    ∧ (∀ e1 e2 : EmailMessage,
        e1.receivedDateTime = e2.receivedDateTime → e1.subject = e2.subject →
        e1.id ≠ e2.id → generateEmailFileName e1 ≠ generateEmailFileName e2) := by
  refine ⟨fun e => rfl, ?_, ?_, ?_⟩
  · intro e
    show ((collapseWs (e.subject.data.filter keepChar)).take 50).length ≤ 50
    exact List.length_take_le 50 _
  · intro e c hc
    have hc2 : c ∈ collapseWs (e.subject.data.filter keepChar) :=
      List.mem_of_mem_take hc
    exact collapseWsAux_safe (e.subject.data.filter keepChar) false
      (fun c2 hc2m => List.of_mem_filter hc2m) c hc2
  · intro e1 e2 hdt hsub hid heq
    apply hid
    have h2 : formatDateTime e2.receivedDateTime ++ "_" ++ sanitizeSubject e2.subject
          ++ "_" ++ e1.id ++ ".json"
        = formatDateTime e2.receivedDateTime ++ "_" ++ sanitizeSubject e2.subject
          ++ "_" ++ e2.id ++ ".json" := by
      have h3 := heq
      simp only [generateEmailFileName, hdt, hsub] at h3
      exact h3
    exact appendLeftCancelStr _ _ _ (appendRightCancelStr _ _ _ h2)

/-- C9, witness: the amended filename properties at concrete records. -/
theorem c9_filename_structure_witness :
    (sanitizeSubject baseEmail.subject).data.length ≤ 50
    ∧ generateEmailFileName baseEmail
        ≠ generateEmailFileName { baseEmail with id := "id1" } :=
  ⟨c9_filename_structure_amended.2.1 baseEmail,
   c9_filename_structure_amended.2.2.2 baseEmail { baseEmail with id := "id1" }
     rfl rfl (by decide)⟩

/-- C10, counterexample: a cached token that has not yet expired but expires
within five minutes is rejected by `isAuthenticated`, yet `getAccessToken`
does not return null — with a nonempty cached refresh token and a successful
silent refresh it returns the refreshed access token. -/
theorem c10_token_refresh_counterexample :
    ((0 : Int) < 200000 ∧ (200000 : Int) ≤ 0 + fiveMinutesMs)
    ∧ c10Near.expiresOn = some 200000
    ∧ isAuthenticated 0 (some c10Near) = false
    ∧ getAccessToken 0 (some c10Near) (some c10Refresh) = some "new-token" :=
  ⟨⟨by decide, by decide⟩, rfl, rfl, rfl⟩

/-- C10, amended: a cached token is valid exactly when its access token is
nonempty and its expiry lies strictly more than five minutes in the future;
`isAuthenticated` rejects a near-expiry token; `getAccessToken` returns null
for such a token whenever no nonempty refresh token is cached (the only state
the device-code flow of this app produces), and otherwise falls back to the
silent refresh and returns the refreshed access token on success. -/
theorem c10_token_validity_amended :
    (∀ (now : Int) (t : AuthToken),
        isTokenValid now t = true ↔
          t.accessToken ≠ "" ∧ ∃ e, t.expiresOn = some e ∧ now + fiveMinutesMs < e)
    ∧ (∀ (now : Int) (t : AuthToken), isTokenValid now t = false →
        isAuthenticated now (some t) = false)
    ∧ (∀ now : Int, isAuthenticated now none = false)
    ∧ (∀ (now : Int) (t : AuthToken) (r : Option RefreshResult),
        isTokenValid now t = false →
        (t.refreshToken = none ∨ t.refreshToken = some "") →
        getAccessToken now (some t) r = none)
    ∧ (∀ (now : Int) (t : AuthToken) (r : RefreshResult) (rt : String),
        isTokenValid now t = false → t.refreshToken = some rt → rt ≠ "" →
        getAccessToken now (some t) (some r) = some r.accessToken) := by
  refine ⟨?_, ?_, ?_, ?_, ?_⟩
  · intro now t
    by_cases h1 : t.accessToken = ""
    · simp [isTokenValid, h1]
    · cases ht : t.expiresOn with
      | none => simp [isTokenValid, h1, ht]
      | some e => simp [isTokenValid, h1, ht]
  · intro now t h
    simpa [isAuthenticated] using h
  · intro now
    rfl
  · intro now t r h hrt
    rcases hrt with h0 | h0 <;> simp [getAccessToken, h, h0]
  · intro now t r rt h hrt hne
    simp [getAccessToken, h, hrt, hne]

/-- C10, witness: the amended behaviour at a concrete near-expiry token with
an empty cached refresh token. -/
theorem c10_token_validity_witness :
    isAuthenticated 0 (some c10NearNoRefresh) = false
    ∧ getAccessToken 0 (some c10NearNoRefresh) none = none :=
  ⟨c10_token_validity_amended.2.1 0 c10NearNoRefresh (by decide),
   c10_token_validity_amended.2.2.2.1 0 c10NearNoRefresh none (by decide)
     (Or.inr rfl)⟩
end ExportMail
